import Mathlib

/-!
Verification of the IBKR_Backtesting simulation engine core.

Shallow embedding of the Python sources:
  * `engine/portfolio.py`  (class `Portfolio`)
  * `engine/execution.py`  (class `ExecutionHandler`)
  * `engine/backtest.py`   (class `BacktestEngine`)

Modelling conventions:
  * Python `float` values are modelled as `ℚ`; Python `int` as `ℤ`.
    The float value NaN is modelled as `none` in `Option ℚ` fields; a
    non-NaN numeric value is `some q`.
  * Python dicts keyed by symbol are modelled as a lookup function
    `Sym → _` together with the list of keys in insertion order
    (the key list is what `dict.items()` iterates over).
  * Python exceptions are modelled by `Except String _`.
  * `datetime` timestamps are modelled by a record carrying the ordinal
    calendar date and the time of day in minutes (`.date()` is the `day`
    field, `.time()` comparisons are `tod` comparisons).
-/

namespace IBKR

abbrev Sym := String

/-- Normalised order side, the `"BUY"` / `"SELL"` strings of the source. -/
inductive Side where
  | buy
  | sell
deriving DecidableEq

/-- Order type, the `"MARKET"` / `"LIMIT"` strings of the source. -/
inductive OrderType where
  | market
  | limit
deriving DecidableEq

/-- A `datetime`: calendar date (ordinal) plus time of day in minutes. -/
structure Timestamp where
  day : ℤ
  tod : ℤ
deriving DecidableEq

/-- Arguments of one `Portfolio.apply_fill` call. -/
structure Fill where
  symbol : Sym
  side : Side
  qty : ℤ
  price : ℚ
  ts : Timestamp

/-- `signed_qty = qty if side == "BUY" else -qty` (portfolio.py line 58). -/
def signedQty (side : Side) (qty : ℤ) : ℤ :=
  match side with
  | .buy => qty
  | .sell => -qty

/-- One entry of `Portfolio.history` (portfolio.py lines 94-105). -/
structure FillRecord where
  ts : Timestamp
  symbol : Sym
  side : Side
  qty : ℤ
  price : ℚ
  cash : ℚ
  position : ℤ
  avg_price : ℚ
  realized_pnl : ℚ
  realized_pnl_cum : ℚ

/-- The mutable state of `Portfolio` (portfolio.py `__init__`).
`symbols` is the key list of the `positions` dict; `positions`,
`avg_price` and `realized_pnl` are the dict lookups with their Python
`.get(sym, 0)` defaults built in. -/
structure Portfolio where
  cash : ℚ
  symbols : List Sym
  positions : Sym → ℤ
  avg_price : Sym → ℚ
  realized_pnl : Sym → ℚ
  history : List FillRecord

/-- `Portfolio(cash=...)`: fresh portfolio, no positions. -/
def Portfolio.init (cash : ℚ) : Portfolio where
  cash := cash
  symbols := []
  positions := fun _ => 0
  avg_price := fun _ => 0
  realized_pnl := fun _ => 0
  history := []

/-- `Portfolio.get_position` (portfolio.py lines 34-35). -/
def Portfolio.getPosition (P : Portfolio) (symbol : Sym) : ℤ :=
  P.positions symbol

/-- `Portfolio.apply_fill` (portfolio.py lines 51-105), translated
branch by branch.  The three accounting branches of the source:
average-price update (lines 67-81), position update (line 82) and
realized-PnL update (lines 84-91); cash moves unconditionally
(line 65). -/
def Portfolio.applyFill (P : Portfolio) (f : Fill) : Portfolio :=
  let signed : ℤ := signedQty f.side f.qty
  let prev_qty : ℤ := P.positions f.symbol
  let prev_avg : ℚ := P.avg_price f.symbol
  let new_qty : ℤ := prev_qty + signed
  let new_cash : ℚ := P.cash + (-signed : ℤ) * f.price
  let new_avg : ℚ :=
    if new_qty ≠ 0 then
      if prev_qty = 0 then f.price
      else if (0 < prev_qty ∧ 0 < signed) ∨ (prev_qty < 0 ∧ signed < 0) then
        (prev_avg * (prev_qty.natAbs : ℚ) + f.price * (signed.natAbs : ℚ))
          / (new_qty.natAbs : ℚ)
      else prev_avg
    else 0
  let realized : ℚ :=
    if prev_qty ≠ 0 ∧ ((0 < prev_qty ∧ signed < 0) ∨ (prev_qty < 0 ∧ 0 < signed)) then
      ((min prev_qty.natAbs signed.natAbs : ℕ) : ℚ) * (f.price - prev_avg)
        * (if 0 < prev_qty then 1 else -1)
    else 0
  let new_realized_cum : ℚ := P.realized_pnl f.symbol + realized
  { cash := new_cash
    symbols := if f.symbol ∈ P.symbols then P.symbols else P.symbols ++ [f.symbol]
    positions := fun s => if s = f.symbol then new_qty else P.positions s
    avg_price := fun s => if s = f.symbol then new_avg else P.avg_price s
    realized_pnl := fun s => if s = f.symbol then new_realized_cum else P.realized_pnl s
    history := P.history ++
      [{ ts := f.ts, symbol := f.symbol, side := f.side, qty := f.qty,
         price := f.price, cash := new_cash, position := new_qty,
         avg_price := new_avg, realized_pnl := realized,
         realized_pnl_cum := new_realized_cum }] }

/-- A sequence of `apply_fill` calls starting from a given state. -/
def Portfolio.applyFills (P : Portfolio) (fs : List Fill) : Portfolio :=
  fs.foldl Portfolio.applyFill P

/-- `Portfolio.mark_to_market` (portfolio.py lines 37-46): cash plus
`qty * px` summed over the entries of the positions dict whose symbol is
present in the supplied price map. -/
def Portfolio.markToMarket (P : Portfolio) (prices : Sym → Option ℚ) : ℚ :=
  P.cash +
    (P.symbols.map (fun s =>
      match prices s with
      | some px => (P.positions s : ℚ) * px
      | none => 0)).sum

/-- The fields of the snapshot dict built by `Portfolio.snapshot_equity`
that the engine reads back (`equity`, `cash`, `timestamp`).  The
remaining keys of the Python dict (per-symbol display tables,
exposures, unrealized PnL) are derived read-only views that nothing in
the engine consumes. -/
structure Snapshot where
  ts : Timestamp
  equity : ℚ
  cash : ℚ

/-- `Portfolio.snapshot_equity` (portfolio.py lines 160-179):
`equity` is `mark_to_market(prices)`. -/
def Portfolio.snapshotEquity (P : Portfolio) (prices : Sym → Option ℚ)
    (ts : Timestamp) : Snapshot where
  ts := ts
  equity := P.markToMarket prices
  cash := P.cash

/-! ## Order (engine/order.py) -/

/-- The `Order` object after its constructor normalised `side` and
`order_type` (order.py lines 17-47).  `price` is `None` unless given;
`ts` is `None` until the engine stamps it at fill time. -/
structure Order where
  symbol : Sym
  side : Side
  qty : ℤ
  price : Option ℚ
  ts : Option Timestamp
  order_type : OrderType

/-! ## Bars -/

/-- One row of the engine's bar data, as consumed by
`ExecutionHandler` and `BacktestEngine`.  The optional quote fields
(`mid`, `bid`, `ask`, `bid_size`, `ask_size`) are `none` when the
column is missing or holds `None`/NaN; `open`/`high`/`low`/`close`/
`volume` are always present (`open` is spelled `opn`, a Lean keyword
clash). -/
structure EngineBar where
  symbol : Sym
  ts : Timestamp
  opn : ℚ
  high : ℚ
  low : ℚ
  close : ℚ
  volume : ℚ
  mid : Option ℚ
  bid : Option ℚ
  ask : Option ℚ
  bid_size : Option ℚ
  ask_size : Option ℚ

/-! ## ExecutionHandler (engine/execution.py) -/

/-- The configuration constants held by `ExecutionHandler.__init__`. -/
structure ExecCfg where
  slippage : ℚ
  commission : ℚ
  impact_lambda : ℚ

/-- `ExecutionHandler._extract_book` (execution.py lines 39-56).
When `bid` or `ask` is missing the fallback sets `bid = ask = close`
and both sizes to `float(volume or 1e9)`, i.e. `volume` when it is
non-zero and `1e9` only when `volume` is zero.  When both quotes are
present, `float(bid_size)` / `float(ask_size)` raise `TypeError` if a
size is `None`. -/
def extractBook (bar : EngineBar) : Except String (ℚ × ℚ × ℚ × ℚ) :=
  match bar.bid, bar.ask with
  | some b, some a =>
    match bar.bid_size, bar.ask_size with
    | some bs, some az => .ok (b, a, bs, az)
    | _, _ => .error "TypeError: float() argument must not be None"
  | _, _ =>
    let sz : ℚ := if bar.volume = 0 then 1000000000 else bar.volume
    .ok (bar.close, bar.close, sz, sz)

/-- `ExecutionHandler.execute_order` (execution.py lines 61-158).
Returns the `(filled, exec_price)` pair of the source together with
the portfolio state after the fill block (which applies the fill and
then subtracts the flat commission when positive; the equity snapshot
and the print block of lines 139-156 are observability only and leave
no state behind).  The `pd.isna` re-check of lines 71-74 cannot fire
in this model because NaN is not representable in `ℚ`. -/
def executeOrder (cfg : ExecCfg) (o : Order) (bar : EngineBar) (P : Portfolio) :
    Except String (Bool × Option ℚ × Portfolio) :=
  match extractBook bar with
  | .error e => .error e
  | .ok (bid, ask, bid_sz, ask_sz) =>
  let qty_f : ℚ := (o.qty : ℚ)
  let fill : ℚ → Bool × Option ℚ × Portfolio := fun exec_price =>
    let P1 := P.applyFill
      { symbol := o.symbol, side := o.side, qty := o.qty,
        price := exec_price, ts := bar.ts }
    let P2 := if 0 < cfg.commission then { P1 with cash := P1.cash - cfg.commission } else P1
    (true, some exec_price, P2)
  match o.order_type with
  | .market =>
    match o.side with
    | .buy =>
      let base_px := ask * (1 + cfg.slippage)
      let overflow := max 0 (qty_f - ask_sz)
      let impact := cfg.impact_lambda * (overflow / max ask_sz 1)
      .ok (fill (base_px * (1 + impact)))
    | .sell =>
      let base_px := bid * (1 - cfg.slippage)
      let overflow := max 0 (qty_f - bid_sz)
      let impact := cfg.impact_lambda * (overflow / max bid_sz 1)
      .ok (fill (base_px * (1 - impact)))
  | .limit =>
    match o.price with
    | none => .error "TypeError: float() argument must not be None"
    | some lim =>
      match o.side with
      | .buy =>
        if bid ≤ lim then
          let base_px := min lim ask
          let overflow := max 0 (qty_f - ask_sz)
          let impact := cfg.impact_lambda * (overflow / max ask_sz 1)
          .ok (fill (base_px * (1 + cfg.slippage) * (1 + impact)))
        else .ok (false, none, P)
      | .sell =>
        if lim ≤ ask then
          let base_px := max lim bid
          let overflow := max 0 (qty_f - bid_sz)
          let impact := cfg.impact_lambda * (overflow / max bid_sz 1)
          .ok (fill (base_px * (1 - cfg.slippage) * (1 - impact)))
        else .ok (false, none, P)

/-! ## BacktestEngine (engine/backtest.py) -/

/-- The engine constructor arguments (backtest.py lines 26-79).
Times of day are minutes: default `m2m_time` 17:15 is 1035 and
`market_close_time` 17:30 is 1050. -/
structure Config where
  symbol : Sym
  initial_cash : ℚ
  slippage : ℚ
  commission : ℚ
  m2m_time : ℤ
  market_close_time : ℤ
  flatten_at_close : Bool

/-- The engine builds `ExecutionHandler(self.portfolio, slippage,
commission)` (backtest.py line 69) without passing `impact_lambda`,
which therefore stays at its default `0.0`. -/
def Config.execCfg (cfg : Config) : ExecCfg where
  slippage := cfg.slippage
  commission := cfg.commission
  impact_lambda := 0

/-- One row of `BacktestEngine.daily_store`; `equity` is the value the
row stores under its `equity_m2m` / `equity_close` key. -/
structure DailyRow where
  date : ℤ
  ts : Timestamp
  equity : ℚ
  note : String
deriving DecidableEq

/-- The engine's mutable state: portfolio, the three result stores and
the per-day bookkeeping (`_last_day`, `_m2m_done_for_day`). -/
structure EngineState where
  portfolio : Portfolio
  filled_orders : List Order
  equity_curve : List Snapshot
  daily_store : List DailyRow
  last_day : Option ℤ
  m2m_done : List ℤ

/-- The state right after `BacktestEngine.__init__`. -/
def initState (cfg : Config) : EngineState where
  portfolio := Portfolio.init cfg.initial_cash
  filled_orders := []
  equity_curve := []
  daily_store := []
  last_day := none
  m2m_done := []

/-- The single-symbol price map `{self.symbol: px}` used by
`BacktestEngine._snapshot`. -/
def singlePrice (sym : Sym) (px : ℚ) : Sym → Option ℚ :=
  fun s => if s = sym then some px else none

/-- `BacktestEngine._get_bar_price` applied to an engine bar, whose
`close` is always present: `mid` if it is not `None`, else `close`. -/
def EngineBar.refPrice (bar : EngineBar) : ℚ :=
  match bar.mid with
  | some m => m
  | none => bar.close

/-- `BacktestEngine._snapshot` (backtest.py lines 98-111): take an
equity snapshot at the given price and append it to `equity_curve`;
returns the new state and the snapshot. -/
def pushSnapshot (cfg : Config) (st : EngineState) (px : ℚ) (ts : Timestamp) :
    EngineState × Snapshot :=
  let snap := st.portfolio.snapshotEquity (singlePrice cfg.symbol px) ts
  ({ st with equity_curve := st.equity_curve ++ [snap] }, snap)

/-- `BacktestEngine._ensure_m2m` (backtest.py lines 113-125): on the
first bar of a date at or past `m2m_time`, snapshot, append an `"m2m"`
ledger row and mark the date done. -/
def ensureM2m (cfg : Config) (st : EngineState) (bar : EngineBar) : EngineState :=
  let d := bar.ts.day
  if d ∉ st.m2m_done ∧ cfg.m2m_time ≤ bar.ts.tod then
    let pr := pushSnapshot cfg st bar.refPrice bar.ts
    { pr.1 with
      daily_store := pr.1.daily_store ++
        [{ date := d, ts := bar.ts, equity := pr.2.equity, note := "m2m" }]
      m2m_done := pr.1.m2m_done ++ [d] }
  else st

/-- `BacktestEngine._close_day` (backtest.py lines 127-173).
The flatten branch (lines 137-153) builds `close_order` but then calls
`self.execution.execute_order(order, bar)` where `order` is the module
imported on line 6, so `order.side` raises `AttributeError` whenever
the branch is reached with a non-zero position.  Otherwise: fire the
`"m2m_at_close"` row if the date's M2M is still pending, then append
an unconditional `"close"` row holding the last equity snapshot
(`IndexError` if the curve is empty). -/
def closeDay (cfg : Config) (st : EngineState) (bar : EngineBar) :
    Except String EngineState :=
  let d := bar.ts.day
  if cfg.flatten_at_close ∧ st.portfolio.getPosition cfg.symbol ≠ 0 then
    .error "AttributeError: module IBKR_Backtesting.engine.order has no attribute side"
  else
    let st1 :=
      if d ∉ st.m2m_done then
        let pr := pushSnapshot cfg st bar.refPrice bar.ts
        { pr.1 with
          m2m_done := pr.1.m2m_done ++ [d]
          daily_store := pr.1.daily_store ++
            [{ date := d, ts := bar.ts, equity := pr.2.equity, note := "m2m_at_close" }] }
      else st
    match st1.equity_curve.getLast? with
    | none => .error "IndexError: equity_curve is empty"
    | some snap =>
      .ok { st1 with
            daily_store := st1.daily_store ++
              [{ date := d, ts := bar.ts, equity := snap.equity, note := "close" }] }

/-- The per-order body of the run loop (backtest.py lines 216-221):
execute, and on fill stamp the order's timestamp and price and append
it to `filled_orders`. -/
def routeOrder (cfg : Config) (bar : EngineBar) (st : EngineState) (o : Order) :
    Except String EngineState :=
  match executeOrder cfg.execCfg o bar st.portfolio with
  | .error e => .error e
  | .ok (filled, px?, P) =>
    if filled then
      match px? with
      | some px =>
        .ok { st with
              portfolio := P
              filled_orders := st.filled_orders ++
                [{ o with ts := some bar.ts, price := some px }] }
      | none => .ok { st with portfolio := P }
    else .ok { st with portfolio := P }

/-- The inner `for _order in orders` loop of `BacktestEngine.run`,
applied in the order the strategy returned the orders. -/
def routeOrders (cfg : Config) (bar : EngineBar) (st : EngineState) :
    List Order → Except String EngineState
  | [] => .ok st
  | o :: os =>
    match routeOrder cfg bar st o with
    | .error e => .error e
    | .ok st1 => routeOrders cfg bar st1 os

/-- The body of the main loop of `BacktestEngine.run` for one bar
(backtest.py lines 205-227): update `_last_day` (the `_day_changed`
result is discarded, the line 212-213 body is `pass`), route the
strategy's orders, snapshot, ensure M2M, and run `_close_day` when the
bar's time of day has reached `market_close_time`. -/
def stepBar (cfg : Config) (strat : EngineBar → List Order)
    (st : EngineState) (bar : EngineBar) : Except String EngineState :=
  let st0 := { st with last_day := some bar.ts.day }
  match routeOrders cfg bar st0 (strat bar) with
  | .error e => .error e
  | .ok st1 =>
    let st2 := (pushSnapshot cfg st1 bar.refPrice bar.ts).1
    let st3 := ensureM2m cfg st2 bar
    if cfg.market_close_time ≤ bar.ts.tod then closeDay cfg st3 bar else .ok st3

/-- The `for bar in self.data.itertuples(...)` loop of
`BacktestEngine.run`. -/
def runLoop (cfg : Config) (strat : EngineBar → List Order)
    (st : EngineState) : List EngineBar → Except String EngineState
  | [] => .ok st
  | bar :: rest =>
    match stepBar cfg strat st bar with
    | .error e => .error e
    | .ok st1 => runLoop cfg strat st1 rest

/-- `BacktestEngine.run` (backtest.py lines 194-231): immediate return
on empty data; otherwise initial snapshot seeded from the first bar,
the main loop, and the unconditional end-of-run `_close_day` on the
last bar. -/
def runEngine (cfg : Config) (strat : EngineBar → List Order)
    (bars : List EngineBar) : Except String EngineState :=
  match bars with
  | [] => .ok (initState cfg)
  | first :: rest =>
    let st0 := initState cfg
    let st1 := { st0 with last_day := some first.ts.day }
    let st2 := (pushSnapshot cfg st1 first.refPrice first.ts).1
    match runLoop cfg strat st2 (first :: rest) with
    | .error e => .error e
    | .ok st3 => closeDay cfg st3 ((first :: rest).getLast (List.cons_ne_nil first rest))

/-! ## The bar-price preference chain (claim C7) -/

/-- A bar record as probed by `BacktestEngine._get_bar_price`, every
price field optional (`none` = attribute missing or `None`). -/
structure PriceBar where
  mid : Option ℚ
  close : Option ℚ
  opn : Option ℚ
  high : Option ℚ
  low : Option ℚ
deriving DecidableEq

/-- `BacktestEngine._get_bar_price` (backtest.py lines 89-96): `mid`
when present and not `None`, else `close` when present and not `None`,
else `float("nan")` (modelled as `none`). -/
def getBarPrice (b : PriceBar) : Option ℚ :=
  match b.mid with
  | some m => some m
  | none =>
    match b.close with
    | some c => some c
    | none => none

/-- The reference price as the spec describes it (refinement
comparison for C7): the first available value in the order mid, close,
open, high, low, and `0.0` when none of the five is available. -/
def getBarPriceClaimed (b : PriceBar) : ℚ :=
  match b.mid with
  | some m => m
  | none =>
    match b.close with
    | some c => c
    | none =>
      match b.opn with
      | some o => o
      | none =>
        match b.high with
        | some h => h
        | none =>
          match b.low with
          | some l => l
          | none => 0

/-- The amended description of `_get_bar_price`: `mid` when available,
else `close`, else NaN (`none`); no open/high/low fallback and no
`0.0` default. -/
def getBarPriceAmended (b : PriceBar) : Option ℚ :=
  match b.mid with
  | some m => some m
  | none => b.close

/-! ## Helpers for reading `Except` results in concrete evaluations -/

/-- The error message of a failed run, `none` on success. -/
def runErr (e : Except String EngineState) : Option String :=
  match e with
  | .error m => some m
  | .ok _ => none

/-- The `(date, note)` projection of the daily ledger of a successful
run, `none` on failure. -/
def runDailyNotes (e : Except String EngineState) : Option (List (ℤ × String)) :=
  match e with
  | .ok st => some (st.daily_store.map fun r => (r.date, r.note))
  | .error _ => none

/-- The `exec_price` component of an `execute_order` result. -/
def execPrice (e : Except String (Bool × Option ℚ × Portfolio)) : Option ℚ :=
  match e with
  | .ok r => r.2.1
  | .error _ => none

/-! ## Derived value used to state the equity invariant (claim C3) -/

/-- Value of exactly the held symbols that have a supplied price:
`qty × price` summed over the position-dict symbols whose quantity is
non-zero and whose symbol is present in the price map.  Symbols with an
open position but no supplied price contribute nothing. -/
def heldValue (P : Portfolio) (prices : Sym → Option ℚ) : ℚ :=
  ((P.symbols.filter fun s => decide (P.positions s ≠ 0) && (prices s).isSome).map
    fun s => (P.positions s : ℚ) * (prices s).getD 0).sum

/-! ## Concrete inputs used by the evaluation theorems and witnesses -/

/-- A bar record whose `mid` and `close` are unavailable while `open`,
`high` and `low` are present (counterexample input for C7). -/
def cb7 : PriceBar :=
  { mid := none, close := none, opn := some 5, high := some 6, low := some 4 }

/-- Engine configuration with the default session times (17:15 = 1035
and 17:30 = 1050 minutes), no costs, flatten disabled. -/
def cfg4 : Config where
  symbol := "SPY"
  initial_cash := 100000
  slippage := 0
  commission := 0
  m2m_time := 1035
  market_close_time := 1050
  flatten_at_close := false

/-- A strategy that never submits orders. -/
def strat4 : EngineBar → List Order := fun _ => []

/-- 17:30, day 0. -/
def ts1050 : Timestamp := { day := 0, tod := 1050 }

/-- 10:00, day 0. -/
def ts600 : Timestamp := { day := 0, tod := 600 }

/-- One quote-less bar at 17:30 with `close = 100` and `volume = 500`. -/
def bar4 : EngineBar where
  symbol := "SPY"
  ts := ts1050
  opn := 100
  high := 100
  low := 100
  close := 100
  volume := 500
  mid := none
  bid := none
  ask := none
  bid_size := none
  ask_size := none

/-- `cfg4` with flatten-at-close enabled. -/
def cfg5 : Config := { cfg4 with flatten_at_close := true }

/-- A strategy that submits one MARKET BUY of 10 on every bar strictly
before 17:30 and nothing afterwards. -/
def strat5 : EngineBar → List Order := fun b =>
  if b.ts.tod < 1050 then
    [{ symbol := "SPY", side := .buy, qty := 10, price := none, ts := none,
       order_type := .market }]
  else []

/-- A quoted bar at 10:00: bid = ask = 100, both sizes 1000. -/
def bar5a : EngineBar := { bar4 with
  ts := ts600
  bid := some 100
  ask := some 100
  bid_size := some 1000
  ask_size := some 1000 }

/-- A standalone execution configuration with `impact_lambda = 0.1`. -/
def cfg6 : ExecCfg := { slippage := 0, commission := 0, impact_lambda := 1/10 }

/-- The quote-less bar of `bar4` moved to 10:00 (fallback book input
for C6): `close = 100`, `volume = 500`, no bid/ask. -/
def bar6 : EngineBar := { bar4 with ts := ts600 }

/-- A MARKET BUY of 1500 units, three times `bar6.volume`. -/
def o6 : Order := { symbol := "SPY", side := .buy, qty := 1500, price := none,
                    ts := none, order_type := .market }

/-- 09:30, day 0. -/
def tsW1 : Timestamp := { day := 0, tod := 570 }

/-- 10:00, day 0 (second witness timestamp). -/
def tsW2 : Timestamp := { day := 0, tod := 600 }

/-- BUY 5 of "A" at 10. -/
def fillBuy5 : Fill :=
  { symbol := "A", side := .buy, qty := 5, price := 10, ts := tsW1 }

/-- SELL 5 of "A" at 12. -/
def fillSell5 : Fill :=
  { symbol := "A", side := .sell, qty := 5, price := 12, ts := tsW2 }

/-- SELL 8 of "A" at 11 (flips a long-5 position to short 3). -/
def fillSell8 : Fill :=
  { symbol := "A", side := .sell, qty := 8, price := 11, ts := tsW2 }

/-- Portfolio holding a long position of 5 in "A" at average price 10. -/
def portW : Portfolio := (Portfolio.init 1000).applyFill fillBuy5

/-! # Theorems -/

/-- Casting `|z|` back with the sign factor used by `apply_fill`
recovers `z`. -/
theorem natAbs_cast_mul_sign (z : ℤ) :
    ((z.natAbs : ℚ)) * (if 0 < z then 1 else -1) = (z : ℚ) := by
  rcases lt_trichotomy 0 z with h | h | h
  · rw [if_pos h, mul_one, Int.cast_natAbs, abs_of_pos (by exact_mod_cast h)]
  · simp [← h]
  · rw [if_neg (by omega), Int.cast_natAbs, abs_of_neg (by exact_mod_cast h)]
    push_cast
    ring

/-- Dropping the zero terms: the `mark_to_market` sum over all dict
entries equals the sum over only the held symbols that have a supplied
price. -/
theorem sum_filter_held (pos : Sym → ℤ) (prices : Sym → Option ℚ) :
    ∀ syms : List Sym,
      (syms.map fun s =>
        match prices s with
        | some px => (pos s : ℚ) * px
        | none => 0).sum
      = ((syms.filter fun s => decide (pos s ≠ 0) && (prices s).isSome).map
          fun s => (pos s : ℚ) * (prices s).getD 0).sum := by
  intro syms
  induction syms with
  | nil => simp
  | cons a t ih =>
    simp only [List.map_cons, List.sum_cons, List.filter_cons]
    cases hp : prices a with
    | none => simpa [hp] using ih
    | some px =>
      by_cases hz : pos a = 0
      · simpa [hp, hz] using ih
      · simp [hp, hz, ih]

/-- `apply_fill` preserves distinctness of the position-dict keys. -/
theorem applyFill_symbols_nodup (P : Portfolio) (hP : P.symbols.Nodup) (f : Fill) :
    (P.applyFill f).symbols.Nodup := by
  simp only [Portfolio.applyFill]
  by_cases h : f.symbol ∈ P.symbols
  · simpa [h]
  · simp [h, List.nodup_append, hP]

/-- Any fill sequence preserves distinctness of the position-dict keys. -/
theorem applyFills_symbols_nodup (fs : List Fill) :
    ∀ P : Portfolio, P.symbols.Nodup → (P.applyFills fs).symbols.Nodup := by
  induction fs with
  | nil => intro P hP; simpa [Portfolio.applyFills] using hP
  | cons f t ih =>
    intro P hP
    have := ih (P.applyFill f) (applyFill_symbols_nodup P hP f)
    simpa [Portfolio.applyFills] using this

/-- C1: for every `apply_fill` call with positive quantity, the cash
after the call equals the cash before minus `signed_qty × price`,
unconditionally — in all three accounting cases. -/
theorem applyFill_cash (P : Portfolio) (f : Fill) (h : 0 < f.qty) :
    (P.applyFill f).cash = P.cash - (signedQty f.side f.qty : ℚ) * f.price := by
  simp only [Portfolio.applyFill]
  push_cast
  ring

/-- Witness for C1: BUY 5 at 10 from a fresh portfolio. -/
theorem applyFill_cash_witness :
    (0:ℤ) < fillBuy5.qty
    ∧ ((Portfolio.init 1000).applyFill fillBuy5).cash
      = (Portfolio.init 1000).cash
        - (signedQty fillBuy5.side fillBuy5.qty : ℚ) * fillBuy5.price :=
  ⟨by decide, applyFill_cash (Portfolio.init 1000) fillBuy5 (by decide)⟩

/-- C2: a fill that fully closes a non-zero position adds exactly
`prev_qty × (price − prev_avg)` to the symbol's cumulative realized
PnL, resets its average price to 0, and any subsequent fill on the
symbol opens afresh with average price equal to its fill price. -/
theorem applyFill_full_close (P : Portfolio) (f : Fill)
    (hq : 0 < f.qty)
    (hprev : P.positions f.symbol ≠ 0)
    (hclose : P.positions f.symbol + signedQty f.side f.qty = 0) :
    (P.applyFill f).realized_pnl f.symbol
      = P.realized_pnl f.symbol
        + (P.positions f.symbol : ℚ) * (f.price - P.avg_price f.symbol)
    ∧ (P.applyFill f).avg_price f.symbol = 0
    ∧ ∀ g : Fill, g.symbol = f.symbol → 0 < g.qty →
        ((P.applyFill f).applyFill g).avg_price f.symbol = g.price := by
  have hcond : P.positions f.symbol ≠ 0 ∧
      (0 < P.positions f.symbol ∧ signedQty f.side f.qty < 0 ∨
       P.positions f.symbol < 0 ∧ 0 < signedQty f.side f.qty) := by
    refine ⟨hprev, ?_⟩
    have : signedQty f.side f.qty ≠ 0 := by
      cases f.side <;> simp [signedQty] <;> omega
    omega
  have habs : (signedQty f.side f.qty).natAbs = (P.positions f.symbol).natAbs := by omega
  refine ⟨?_, ?_, ?_⟩
  · simp only [Portfolio.applyFill]
    simp [hclose, hcond.1, hcond.2, habs]
    rcases lt_trichotomy 0 (P.positions f.symbol) with h | h | h
    · rw [if_pos h, Int.cast_natAbs, abs_of_pos (by exact_mod_cast h)]
    · exact absurd h.symm hprev
    · rw [if_neg (by omega), Int.cast_natAbs, abs_of_neg (by exact_mod_cast h)]
      push_cast
      ring
  · simp only [Portfolio.applyFill]
    simp [hclose]
  · intro g hsym hgq
    have hs2 : signedQty g.side g.qty ≠ 0 := by
      cases g.side <;> simp [signedQty] <;> omega
    simp only [Portfolio.applyFill]
    simp [hclose, hsym, hs2]

/-- Witness for C2: SELL 5 at 12 fully closes the long 5 at 10. -/
theorem applyFill_full_close_witness :
    ((0:ℤ) < fillSell5.qty
      ∧ portW.positions fillSell5.symbol ≠ 0
      ∧ portW.positions fillSell5.symbol + signedQty fillSell5.side fillSell5.qty = 0)
    ∧ ((portW.applyFill fillSell5).realized_pnl fillSell5.symbol
        = portW.realized_pnl fillSell5.symbol
          + (portW.positions fillSell5.symbol : ℚ)
            * (fillSell5.price - portW.avg_price fillSell5.symbol)
      ∧ (portW.applyFill fillSell5).avg_price fillSell5.symbol = 0
      ∧ ∀ g : Fill, g.symbol = fillSell5.symbol → 0 < g.qty →
          ((portW.applyFill fillSell5).applyFill g).avg_price fillSell5.symbol = g.price) :=
  ⟨⟨by decide, by decide, by decide⟩,
    applyFill_full_close portW fillSell5 (by decide) (by decide) (by decide)⟩

/-- C3: in every state reachable from a fresh portfolio by
`apply_fill` calls, `snapshot_equity` and `mark_to_market` report
`cash` plus the value of exactly those held symbols that are present
in the supplied price map (unpriced positions are excluded, and the
distinct key list rules out double counting). -/
theorem snapshot_equity_invariant (c : ℚ) (fills : List Fill)
    (prices : Sym → Option ℚ) (ts : Timestamp) :
    ((((Portfolio.init c).applyFills fills).snapshotEquity prices ts).equity
        = ((Portfolio.init c).applyFills fills).markToMarket prices)
    ∧ (((Portfolio.init c).applyFills fills).markToMarket prices
        = ((Portfolio.init c).applyFills fills).cash
          + heldValue ((Portfolio.init c).applyFills fills) prices)
    ∧ ((Portfolio.init c).applyFills fills).symbols.Nodup := by
  refine ⟨rfl, ?_, ?_⟩
  · rw [Portfolio.markToMarket, heldValue, sum_filter_held]
  · exact applyFills_symbols_nodup fills _ (by simp [Portfolio.init])

/-- C4 (evaluation at the failing input): a run over a single bar at
17:30 appends a `"close"` ledger row from the in-loop `_close_day` and
a second one from the unconditional end-of-run `_close_day`, so the
one processed date gets two `"close"` rows, not one. -/
theorem close_row_duplicated :
    runDailyNotes (runEngine cfg4 strat4 [bar4]) =
      some [(0, "m2m"), (0, "close"), (0, "close")] := by
  norm_num [runEngine, runLoop, stepBar, routeOrders, closeDay, ensureM2m,
    pushSnapshot, Portfolio.snapshotEquity, Portfolio.markToMarket,
    initState, Portfolio.init, Portfolio.getPosition, singlePrice,
    EngineBar.refPrice, runDailyNotes, cfg4, bar4, strat4, ts1050]

/-- C5 (evaluation at the failing input): with flatten-at-close
enabled and an open position of 10 when the close trigger fires,
`_close_day` calls `execute_order` on the imported `order` module
instead of the synthetic close order it just built, and the run dies
with `AttributeError` instead of flattening the position. -/
theorem flatten_at_close_crashes :
    runErr (runEngine cfg5 strat5 [bar5a, bar4]) =
      some "AttributeError: module IBKR_Backtesting.engine.order has no attribute side" := by
  norm_num [runEngine, runLoop, stepBar, routeOrders, routeOrder, executeOrder,
    extractBook, closeDay, ensureM2m, pushSnapshot, Portfolio.snapshotEquity,
    Portfolio.markToMarket, Portfolio.applyFill, signedQty, initState,
    Portfolio.init, Portfolio.getPosition, singlePrice, Config.execCfg,
    EngineBar.refPrice, runErr, cfg5, cfg4, bar5a, bar4, strat5, ts600, ts1050]

/-- C6 (evaluation at the failing input): on a quote-less bar with
`close = 100` and `volume = 500`, the fallback book has both sizes
equal to `volume` (500), not `max(volume, 1e9)`; a MARKET BUY of 1500
against it with `impact_lambda = 0.1` fills at 120 — a 20% market
impact rather than the zero impact the claim promises. -/
theorem fallback_book_sizes_impact :
    extractBook bar6 = .ok (100, 100, 500, 500)
    ∧ execPrice (executeOrder cfg6 o6 bar6 (Portfolio.init 100000)) = some 120
    ∧ (120 : ℚ) ≠ 100 := by
  refine ⟨?_, ?_, by norm_num⟩
  · norm_num [extractBook, bar6, bar4]
  · norm_num [executeOrder, extractBook, execPrice, Portfolio.applyFill,
      signedQty, Portfolio.init, cfg6, o6, bar6, bar4]

/-- C7 counterexample: on a bar with no `mid` and no `close` but an
`open` of 5, `_get_bar_price` returns NaN while the claimed
mid→close→open→high→low chain returns 5. -/
theorem getBarPrice_chain_ctrex :
    getBarPrice cb7 ≠ some (getBarPriceClaimed cb7)
    ∧ getBarPrice cb7 = none ∧ getBarPriceClaimed cb7 = 5 := by decide

/-- C7 (amended): the reference price is `mid` when available, else
`close` when available, else NaN — there is no open/high/low fallback
and no `0.0` default. -/
theorem getBarPrice_mid_close_only (b : PriceBar) :
    getBarPrice b = getBarPriceAmended b := by
  rcases b with ⟨m, c, o, h, l⟩
  cases m <;> cases c <;> rfl

/-- C8: buying `N` then selling `N` of the same symbol at the same
price from a flat position leaves the symbol's cumulative realized PnL,
the net position and the cash exactly as they were. -/
theorem roundTrip (P : Portfolio) (sym : Sym) (N : ℤ) (p : ℚ)
    (ts1 ts2 : Timestamp) (hN : 0 < N) (hflat : P.positions sym = 0) :
    (((P.applyFill { symbol := sym, side := .buy, qty := N, price := p, ts := ts1 }).applyFill
        { symbol := sym, side := .sell, qty := N, price := p, ts := ts2 }).realized_pnl sym
      = P.realized_pnl sym)
    ∧ ((P.applyFill { symbol := sym, side := .buy, qty := N, price := p, ts := ts1 }).applyFill
        { symbol := sym, side := .sell, qty := N, price := p, ts := ts2 }).positions sym = 0
    ∧ ((P.applyFill { symbol := sym, side := .buy, qty := N, price := p, ts := ts1 }).applyFill
        { symbol := sym, side := .sell, qty := N, price := p, ts := ts2 }).cash = P.cash := by
  have hN' : N ≠ 0 := by omega
  refine ⟨?_, ?_, ?_⟩
  · simp [Portfolio.applyFill, signedQty, hflat, hN']
  · simp [Portfolio.applyFill, signedQty, hflat]
  · simp [Portfolio.applyFill, signedQty, hflat]

/-- Witness for C8: BUY 5 then SELL 5 of "A" at price 10. -/
theorem roundTrip_witness :
    ((0:ℤ) < 5 ∧ (Portfolio.init 1000).positions "A" = 0)
    ∧ ((((Portfolio.init 1000).applyFill
          { symbol := "A", side := .buy, qty := 5, price := 10, ts := tsW1 }).applyFill
          { symbol := "A", side := .sell, qty := 5, price := 10, ts := tsW2 }).realized_pnl "A"
        = (Portfolio.init 1000).realized_pnl "A"
      ∧ (((Portfolio.init 1000).applyFill
          { symbol := "A", side := .buy, qty := 5, price := 10, ts := tsW1 }).applyFill
          { symbol := "A", side := .sell, qty := 5, price := 10, ts := tsW2 }).positions "A" = 0
      ∧ (((Portfolio.init 1000).applyFill
          { symbol := "A", side := .buy, qty := 5, price := 10, ts := tsW1 }).applyFill
          { symbol := "A", side := .sell, qty := 5, price := 10, ts := tsW2 }).cash
        = (Portfolio.init 1000).cash) :=
  ⟨⟨by decide, by decide⟩,
    roundTrip (Portfolio.init 1000) "A" 5 10 tsW1 tsW2 (by decide) (by decide)⟩

/-- C9: `run()` on an empty dataset returns immediately with the
constructor state untouched — cash at `initial_cash`, no positions,
and empty equity curve, filled-orders log and daily ledger. -/
theorem run_empty_noop (cfg : Config) (strat : EngineBar → List Order) :
    runEngine cfg strat [] = .ok (initState cfg)
    ∧ (initState cfg).portfolio.cash = cfg.initial_cash
    ∧ (initState cfg).portfolio.symbols = []
    ∧ (initState cfg).filled_orders = []
    ∧ (initState cfg).equity_curve = []
    ∧ (initState cfg).daily_store = [] :=
  ⟨rfl, rfl, rfl, rfl, rfl, rfl⟩

/-- C10: a fill whose signed quantity opposes the position's sign with
strictly larger magnitude flips the position through zero: the result
holds `|signed| − |prev|` units on the opposite side, keeps the old
average price (rather than the fill price), and realizes
`|prev| × (price − prev_avg) × sign(prev)`. -/
theorem applyFill_flip (P : Portfolio) (f : Fill)
    (hq : 0 < f.qty)
    (hprev : P.positions f.symbol ≠ 0)
    (hopp : (0 < P.positions f.symbol ∧ signedQty f.side f.qty < 0) ∨
            (P.positions f.symbol < 0 ∧ 0 < signedQty f.side f.qty))
    (hmag : (P.positions f.symbol).natAbs < (signedQty f.side f.qty).natAbs) :
    ((P.applyFill f).positions f.symbol).natAbs
        = (signedQty f.side f.qty).natAbs - (P.positions f.symbol).natAbs
    ∧ (0 < P.positions f.symbol → (P.applyFill f).positions f.symbol < 0)
    ∧ (P.positions f.symbol < 0 → 0 < (P.applyFill f).positions f.symbol)
    ∧ (P.applyFill f).avg_price f.symbol = P.avg_price f.symbol
    ∧ (P.applyFill f).realized_pnl f.symbol
        = P.realized_pnl f.symbol
          + ((P.positions f.symbol).natAbs : ℚ) * (f.price - P.avg_price f.symbol)
            * (if 0 < P.positions f.symbol then 1 else -1) := by
  have hpos : (P.applyFill f).positions f.symbol
      = P.positions f.symbol + signedQty f.side f.qty := by
    simp [Portfolio.applyFill]
  have hnz : P.positions f.symbol + signedQty f.side f.qty ≠ 0 := by omega
  have hmin : min (P.positions f.symbol).natAbs (signedQty f.side f.qty).natAbs
      = (P.positions f.symbol).natAbs := by omega
  have hss : ¬((0 < P.positions f.symbol ∧ 0 < signedQty f.side f.qty) ∨
      (P.positions f.symbol < 0 ∧ signedQty f.side f.qty < 0)) := by omega
  refine ⟨?_, ?_, ?_, ?_, ?_⟩
  · rw [hpos]; omega
  · rw [hpos]; omega
  · rw [hpos]; omega
  · simp only [Portfolio.applyFill]
    simp [hnz, hprev, hss]
  · simp only [Portfolio.applyFill]
    simp [hprev, hopp, hmin]

/-- Witness for C10: SELL 8 at 11 against the long 5 at 10 leaves a
short 3 with average price 10 and realizes `5 × (11 − 10)`. -/
theorem applyFill_flip_witness :
    ((0:ℤ) < fillSell8.qty
      ∧ portW.positions fillSell8.symbol ≠ 0
      ∧ ((0 < portW.positions fillSell8.symbol ∧ signedQty fillSell8.side fillSell8.qty < 0)
          ∨ (portW.positions fillSell8.symbol < 0 ∧ 0 < signedQty fillSell8.side fillSell8.qty))
      ∧ (portW.positions fillSell8.symbol).natAbs < (signedQty fillSell8.side fillSell8.qty).natAbs)
    ∧ (((portW.applyFill fillSell8).positions fillSell8.symbol).natAbs
          = (signedQty fillSell8.side fillSell8.qty).natAbs
            - (portW.positions fillSell8.symbol).natAbs
      ∧ (0 < portW.positions fillSell8.symbol →
          (portW.applyFill fillSell8).positions fillSell8.symbol < 0)
      ∧ (portW.positions fillSell8.symbol < 0 →
          0 < (portW.applyFill fillSell8).positions fillSell8.symbol)
      ∧ (portW.applyFill fillSell8).avg_price fillSell8.symbol
          = portW.avg_price fillSell8.symbol
      ∧ (portW.applyFill fillSell8).realized_pnl fillSell8.symbol
          = portW.realized_pnl fillSell8.symbol
            + ((portW.positions fillSell8.symbol).natAbs : ℚ)
              * (fillSell8.price - portW.avg_price fillSell8.symbol)
              * (if 0 < portW.positions fillSell8.symbol then 1 else -1)) :=
  ⟨⟨by decide, by decide, by decide, by decide⟩,
    applyFill_flip portW fillSell8 (by decide) (by decide) (by decide) (by decide)⟩

end IBKR
